import Mathlib

/-!
Verification of the M-Pesa payment lifecycle subsystem of the kenco rental
backend.  The definitions below are a shallow embedding of the relevant
JavaScript source:

* `MpesaService.formatPhoneNumber` (phone normalization),
* `MpesaService.initiatePayment` (push initiation, gateway call abstracted),
* `MpesaService.processCallback` (callback payload decoding),
* `checkAndUpdatePaymentStatus` in `server.js` (the status-poll resolve path),
* the `POST /api/payments/mpesa/callback` route handler (the callback-ingest
  resolve path),
* the `POST /api/payments/mpesa/initiate` route handler.

The relational `payments` table is modelled as a list of rows; each SQL
`UPDATE ... WHERE id = ?` becomes a map over that list.  Nondeterministic or
external effects (the gateway HTTP calls, the sandbox random status
generator, wall-clock timestamps) are passed in as explicit parameters.
-/

/-- Embeds `phone.replace(/\D/g, '')`: keep only the decimal digits. -/
def stripNonDigits (s : String) : List Char :=
  s.toList.filter Char.isDigit

/-- Final length check of `formatPhoneNumber`: `if (formatted.length !== 12)
throw ...; return formatted`. -/
def phoneLengthCheck (f : List Char) : Except String (List Char) :=
  if f.length = 12 then .ok f
  else .error "Phone number must be 12 digits in 254XXXXXXXXX format"

/-- Core of `MpesaService.formatPhoneNumber` on the stripped digit list.
The JS checks, in order: `startsWith('0')` (replace the trunk `0` by `254`),
`startsWith('7') || startsWith('1')` (prepend `254`), `!startsWith('254')`
(throw `Invalid phone number format`); the surviving value then passes the
12-character gate `phoneLengthCheck` (in the source the gate sits after the
if-chain; threading it into each surviving branch is equivalent because the
remaining branch throws first). -/
def formatPhoneList (ds : List Char) : Except String (List Char) :=
  if ds.take 1 = ['0'] then phoneLengthCheck (['2', '5', '4'] ++ ds.drop 1)
  else if ds.take 1 = ['7'] ∨ ds.take 1 = ['1'] then phoneLengthCheck (['2', '5', '4'] ++ ds)
  else if ds.take 3 = ['2', '5', '4'] then phoneLengthCheck ds
  else .error "Invalid phone number format"

/-- Embeds `MpesaService.formatPhoneNumber` (src/unnamed/part_003:89-106). -/
def formatPhoneNumber (phone : String) : Except String String :=
  (formatPhoneList (stripNonDigits phone)).map fun l => String.mk l

deriving instance DecidableEq for Except

/-- Row of the `payments` table (columns used by the M-Pesa flow).
`reference_number` and `notes` are nullable columns, hence `Option`. -/
structure PaymentRow where
  id : Nat
  tenant_id : Nat
  property_id : Nat
  amount : Int
  payment_method : String
  payment_status : String
  reference_number : Option String
  notes : Option String
deriving DecidableEq

/-- Payment status shape shared by `checkPaymentStatus` (poll) and
`processCallback` (callback): `ResultCode` is carried as a string (both
source paths call `.toString()` on it); the settlement metadata fields are
only present on success.  Metadata values are kept as their source strings
(the JS `parseFloat` on `Amount`/`Balance` is collapsed to the raw digits,
which is lossless for the equalities proved here). -/
structure StatusResult where
  MerchantRequestID : String
  CheckoutRequestID : String
  ResultCode : String
  ResultDesc : String
  Amount : Option String := none
  MpesaReceiptNumber : Option String := none
  TransactionDate : Option String := none
  PhoneNumber : Option String := none
  Balance : Option String := none
deriving DecidableEq

/-- One key/value field of a `JSON.stringify` output; a `none` value models a
JS `undefined` property, which `JSON.stringify` omits. -/
def jsonField (kv : String × Option String) : Option String :=
  kv.2.map fun v => "\x22" ++ kv.1 ++ "\x22:\x22" ++ v ++ "\x22"

/-- Embeds `JSON.stringify({...})` for the flat metadata objects the payment
code serializes into `notes` (fields with `undefined` values are dropped). -/
def jsonObj (fields : List (String × Option String)) : String :=
  "\x7b" ++ String.intercalate "," (fields.filterMap jsonField) ++ "\x7d"

/-- JS `a || b` on a possibly-undefined string `a`: `undefined` and the empty
string are falsy. -/
def jsOr (a : Option String) (b : String) : String :=
  match a with
  | none => b
  | some s => if s = "" then b else s

/-- Embeds `UPDATE payments SET ... WHERE id = ?`: every row whose `id`
matches is rewritten by `f`. -/
def updateById (store : List PaymentRow) (pid : Nat) (f : PaymentRow → PaymentRow) :
    List PaymentRow :=
  store.map fun r => if r.id = pid then f r else r

/-- Row rewrite of the poll path's success branch (src/server.js:262-280):
`SET payment_status = 'completed', reference_number = ?, notes = ?`. -/
def pollSuccessUpdate (checkoutRequestId : String) (mpesaStatus : StatusResult)
    (r : PaymentRow) : PaymentRow :=
  { r with
    payment_status := "completed"
    reference_number := some (jsOr mpesaStatus.MpesaReceiptNumber checkoutRequestId)
    notes := some (jsonObj
      [("mpesaReceiptNumber", mpesaStatus.MpesaReceiptNumber),
       ("transactionDate", mpesaStatus.TransactionDate),
       ("phoneNumber", mpesaStatus.PhoneNumber),
       ("checkoutRequestId", some checkoutRequestId)]) }

/-- Row rewrite of the poll path's failure branch (src/server.js:286-289):
`SET payment_status = 'failed', notes = ?`. -/
def pollFailureUpdate (mpesaStatus : StatusResult) (r : PaymentRow) : PaymentRow :=
  { r with
    payment_status := "failed"
    notes := some ("Error " ++ mpesaStatus.ResultCode ++ ": " ++ mpesaStatus.ResultDesc) }

/-- Embeds `checkAndUpdatePaymentStatus` (src/server.js:253-299), the
status-poll resolve path.  The source first calls
`mpesaService.checkPaymentStatus` (a weighted-random simulated gateway
answer); that external result is passed in here as `mpesaStatus`.  Both
branches are unconditional `UPDATE ... WHERE id = ?` writes; on success the
`reference_number` column is rewritten to
`mpesaStatus.MpesaReceiptNumber || checkoutRequestId`. -/
def checkAndUpdatePaymentStatus (checkoutRequestId : String) (paymentId : Nat)
    (mpesaStatus : StatusResult) (store : List PaymentRow) : List PaymentRow :=
  if mpesaStatus.ResultCode = "0" then
    updateById store paymentId (pollSuccessUpdate checkoutRequestId mpesaStatus)
  else
    updateById store paymentId (pollFailureUpdate mpesaStatus)

/-- One `{Name, Value}` entry of `CallbackMetadata.Item`. -/
structure CallbackItem where
  Name : String
  Value : String
deriving DecidableEq

/-- The `Body.stkCallback` object of an M-Pesa callback request.
`ResultCode` arrives as a JSON number, hence `Int` here. -/
structure StkCallback where
  MerchantRequestID : String
  CheckoutRequestID : String
  ResultCode : Int
  ResultDesc : String
  CallbackMetadata : Option (List CallbackItem)
deriving DecidableEq

/-- A callback request body; `stkCallback = none` models any body where
`callbackData.Body?.stkCallback` is absent. -/
structure CallbackBody where
  stkCallback : Option StkCallback
deriving DecidableEq

/-- One step of the `metadata.forEach` switch in `processCallback`. -/
def applyMetadataItem (st : StatusResult) (item : CallbackItem) : StatusResult :=
  if item.Name = "Amount" then { st with Amount := some item.Value }
  else if item.Name = "MpesaReceiptNumber" then { st with MpesaReceiptNumber := some item.Value }
  else if item.Name = "TransactionDate" then { st with TransactionDate := some item.Value }
  else if item.Name = "PhoneNumber" then { st with PhoneNumber := some item.Value }
  else if item.Name = "Balance" then { st with Balance := some item.Value }
  else st

/-- Embeds `MpesaService.processCallback` (src/unnamed/part_003:339-385):
decodes a callback body into a `StatusResult`, extracting the settlement
metadata only when `ResultCode === 0` and metadata items are present; throws
(`.error`) on a body without the expected nested structure. -/
def processCallback (callbackData : CallbackBody) : Except String StatusResult :=
  match callbackData.stkCallback with
  | none => .error "Failed to process M-Pesa callback"
  | some cb =>
      let st : StatusResult :=
        { MerchantRequestID := cb.MerchantRequestID
          CheckoutRequestID := cb.CheckoutRequestID
          ResultCode := toString cb.ResultCode
          ResultDesc := cb.ResultDesc }
      if cb.ResultCode = 0 then
        match cb.CallbackMetadata with
        | some items => .ok (items.foldl applyMetadataItem st)
        | none => .ok st
      else .ok st

/-- The fixed acknowledgement body the callback route sends to the gateway. -/
structure AckResponse where
  ResultCode : Int
  ResultDesc : String
deriving DecidableEq

/-- Literal `{ResultCode: 0, ResultDesc: "Accepted"}`. -/
def mpesaAck : AckResponse := { ResultCode := 0, ResultDesc := "Accepted" }

/-- An inbound callback HTTP request.  The route is registered without the
`authenticateToken` middleware, so the `Authorization` header (modelled here
explicitly) is never consulted. -/
structure CallbackRequest where
  authorization : Option String
  body : CallbackBody
deriving DecidableEq

/-- Embeds `SELECT * FROM payments WHERE reference_number = ?` followed by
`payments[0]`: the first matching row, if any. -/
def findByReference (store : List PaymentRow) (ref : String) : Option PaymentRow :=
  store.find? fun r => r.reference_number = some ref

/-- Row rewrite of the callback path's success branch (src/server.js:1411-1430):
`SET payment_status = 'completed', reference_number = ?, notes = ?` with the
receipt number bound to `reference_number`.  It is only ever executed with a
present receipt — `receipt` is the value inside `MpesaReceiptNumber`; when the
receipt is absent the driver rejects the undefined bind parameter before any
row is written (see `mpesaCallbackHandler`). -/
def callbackSuccessUpdate (paymentStatus : StatusResult) (receipt : String)
    (r : PaymentRow) : PaymentRow :=
  { r with
    payment_status := "completed"
    reference_number := some receipt
    notes := some (jsonObj
      [("mpesaReceiptNumber", paymentStatus.MpesaReceiptNumber),
       ("transactionDate", paymentStatus.TransactionDate),
       ("phoneNumber", paymentStatus.PhoneNumber),
       ("balance", paymentStatus.Balance),
       ("merchantRequestId", some paymentStatus.MerchantRequestID)]) }

/-- Row rewrite of the callback path's failure branch (src/server.js:1434-1438):
`SET payment_status = 'failed', notes = ?`. -/
def callbackFailureUpdate (paymentStatus : StatusResult) (r : PaymentRow) : PaymentRow :=
  { r with
    payment_status := "failed"
    notes := some ("Error " ++ paymentStatus.ResultCode ++ ": " ++ paymentStatus.ResultDesc) }

/-- Embeds the `POST /api/payments/mpesa/callback` route handler
(src/server.js:1393-1460).  Returns the store after the handler runs and the
HTTP response body.  Every branch of the source — successful resolution,
failed resolution, no matching record, and the `catch` for a malformed body —
answers the gateway with `mpesaAck`.  On success the matched record is
rewritten unconditionally (`WHERE id = ?`), with `reference_number` replaced
by the receipt number.  When a successful payload carries no receipt (absent
`CallbackMetadata`, or metadata without an `MpesaReceiptNumber` item), the
source binds `undefined` into `connection.execute` (src/server.js:1426-1430);
the mysql2 driver rejects undefined bind parameters, so the statement throws
before any row is written, the `catch` (src/server.js:1452-1458) still
acknowledges, and the store is unchanged — the `none` branch below. -/
def mpesaCallbackHandler (req : CallbackRequest) (store : List PaymentRow) :
    List PaymentRow × AckResponse :=
  match processCallback req.body with
  | .error _ => (store, mpesaAck)
  | .ok paymentStatus =>
      match findByReference store paymentStatus.CheckoutRequestID with
      | none => (store, mpesaAck)
      | some payment =>
          if paymentStatus.ResultCode = "0" then
            match paymentStatus.MpesaReceiptNumber with
            | none => (store, mpesaAck)
            | some receipt =>
                (updateById store payment.id (callbackSuccessUpdate paymentStatus receipt),
                 mpesaAck)
          else
            (updateById store payment.id (callbackFailureUpdate paymentStatus), mpesaAck)

/-- Provider acknowledgement of a push initiation (the fields of the object
returned by `MpesaService.initiatePayment`). -/
structure PushAck where
  MerchantRequestID : String
  CheckoutRequestID : String
  ResponseCode : String
deriving DecidableEq

/-- Argument object of `MpesaService.initiatePayment`.  The amount is a JSON
number, modelled as a rational (floats with NaN are outside this embedding;
the handler separately screens `isNaN`). -/
structure PaymentRequest where
  phone : String
  amount : Rat
  accountReference : String
  transactionDesc : String
deriving DecidableEq

/-- Embeds `MpesaService.initiatePayment` (src/unnamed/part_003:145-249).
Token acquisition and the gateway wire call (sandbox random simulation or
production HTTP) are abstracted into the `gateway` parameter; everything the
function itself computes — phone re-validation, `Math.floor` of the amount,
the `amount < 1` check, truncation of the account reference to 12 and the
description to 13 characters — is kept.  There is no upper bound on the
amount in this function. -/
def initiatePayment (gateway : Except String PushAck) (paymentRequest : PaymentRequest) :
    Except String PushAck :=
  match formatPhoneNumber paymentRequest.phone with
  | .error e => .error e
  | .ok _formattedPhone =>
      let amount : Int := paymentRequest.amount.floor
      if amount < 1 then .error "Amount must be at least 1 KES"
      else
        let _accountRef := paymentRequest.accountReference.take 12
        let _transactionDesc := paymentRequest.transactionDesc.take 13
        gateway

/-- Row of the `tenants` table (columns used by the initiate handler). -/
structure TenantRow where
  id : Nat
  property_id : Nat
  user_id : Nat
deriving DecidableEq

/-- Outcome of the initiate route: HTTP 400 with a message, HTTP 500 (the
`catch` branch after rollback), or HTTP 201 with the created payment. -/
inductive InitResult where
  | badRequest (message : String)
  | serverError (message : String)
  | created (paymentId : Nat) (checkoutRequestId : String)
deriving DecidableEq

/-- Discriminates the HTTP 201 outcome. -/
def InitResult.isCreated : InitResult → Bool
  | .created _ _ => true
  | _ => false

/-- Embeds the `POST /api/payments/mpesa/initiate` route handler
(src/server.js:1124-1299).  External inputs are explicit: `tenants` is the
`tenants` table, `gateway` the outcome of the push-initiate wire call, `now`
the `new Date().toISOString()` value, `nextId` the auto-increment id the
insert would receive.  The body fields `amount`/`phone`/`description` are the
parsed request body (`description = none` for an absent or falsy value; the
JS `!amount` guard makes a zero amount hit the required-fields check).  The
transaction is modelled by returning the original `store` on rollback. -/
def mpesaInitiateHandler (userId : Nat) (amount : Rat) (phone : String)
    (description : Option String) (tenants : List TenantRow)
    (gateway : Except String PushAck) (now : String) (nextId : Nat)
    (store : List PaymentRow) : List PaymentRow × InitResult :=
  if amount = 0 ∨ phone = "" then
    (store, .badRequest "Amount and phone number are required")
  else
    let wholeAmount : Int := amount.floor
    if wholeAmount < 1 ∨ wholeAmount > 500000 then
      (store, .badRequest "Amount must be between KES 1 and KES 500,000")
    else
      match formatPhoneNumber phone with
      | .error e => (store, .badRequest ("Invalid phone number: " ++ e))
      | .ok formattedPhone =>
          match tenants.find? fun t => t.user_id = userId with
          | none => (store, .badRequest "No active tenancy found. Please contact your landlord.")
          | some tenant =>
              let pendingRow : PaymentRow :=
                { id := nextId
                  tenant_id := tenant.id
                  property_id := tenant.property_id
                  amount := wholeAmount
                  payment_method := "mpesa"
                  payment_status := "pending"
                  reference_number := none
                  notes := some ("STK Push to " ++ formattedPhone.take 6 ++ "***") }
              let txStore := store ++ [pendingRow]
              let paymentRequest : PaymentRequest :=
                { phone := formattedPhone
                  amount := (wholeAmount : Rat)
                  accountReference := "RENT" ++ toString nextId
                  transactionDesc :=
                    match description with
                    | some d => d.take 13
                    | none => "Rent" ++ toString nextId }
              match initiatePayment gateway paymentRequest with
              | .error _ => (store, .serverError "Failed to initiate payment. Please try again.")
              | .ok mpesaResponse =>
                  (updateById txStore nextId fun r =>
                    { r with
                      reference_number := some mpesaResponse.CheckoutRequestID
                      notes := some (jsonObj
                        [("merchantRequestId", some mpesaResponse.MerchantRequestID),
                         ("checkoutRequestId", some mpesaResponse.CheckoutRequestID),
                         ("responseCode", some mpesaResponse.ResponseCode),
                         ("phoneNumber", some (formattedPhone.take 6 ++ "***")),
                         ("initiatedAt", some now)]) },
                   .created nextId mpesaResponse.CheckoutRequestID)

/-! ### Concrete fixtures for counterexamples and witnesses -/

/-- A sample provider checkout request id (the shape the sandbox generates). -/
def cidW : String := "ws_CO_20260101120000123456"

/-- A payment row as `initiate` leaves it: `pending`, with the correlation id
stored in `reference_number`. -/
def rowPendingW : PaymentRow :=
  { id := 1, tenant_id := 7, property_id := 3, amount := 500,
    payment_method := "mpesa", payment_status := "pending",
    reference_number := some cidW, notes := some "STK Push to 254712***" }

/-- The same row after a failed resolve: terminal `failed`, correlation id
still in place. -/
def rowFailedW : PaymentRow :=
  { rowPendingW with
    payment_status := "failed"
    notes := some "Error 1032: Request canceled by user" }

/-- The `stkCallback` object of a successful callback for `cidW`, with full
settlement metadata. -/
def successCbW : StkCallback :=
  { MerchantRequestID := "29115-34620561-1"
    CheckoutRequestID := cidW
    ResultCode := 0
    ResultDesc := "The service request is processed successfully."
    CallbackMetadata := some
      [{ Name := "Amount", Value := "500" },
       { Name := "MpesaReceiptNumber", Value := "ABC123" },
       { Name := "TransactionDate", Value := "20260101120130" },
       { Name := "PhoneNumber", Value := "254712345678" }] }

/-- A successful callback body for `cidW`. -/
def successBodyW : CallbackBody := { stkCallback := some successCbW }

/-- The `stkCallback` object of a user-cancelled (failed) callback for `cidW`. -/
def failCbW : StkCallback :=
  { MerchantRequestID := "29115-34620561-1"
    CheckoutRequestID := cidW
    ResultCode := 1032
    ResultDesc := "Request canceled by user"
    CallbackMetadata := none }

/-- A failed callback body for `cidW`. -/
def failBodyW : CallbackBody := { stkCallback := some failCbW }

/-- The successful callback as an HTTP request (no credentials attached). -/
def reqSuccessW : CallbackRequest := { authorization := none, body := successBodyW }

/-- The failed callback as an HTTP request. -/
def reqFailW : CallbackRequest := { authorization := none, body := failBodyW }

/-- A one-tenant `tenants` table: tenant 5 on property 3, linked to user 7. -/
def tenantsW : List TenantRow := [{ id := 5, property_id := 3, user_id := 7 }]

/-- A successful gateway acknowledgement for push initiation. -/
def ackW : PushAck :=
  { MerchantRequestID := "29115-34620561-1", CheckoutRequestID := cidW, ResponseCode := "0" }

/-- A fixed wall-clock value for the `initiatedAt` metadata field. -/
def nowW : String := "2026-01-01T12:00:00.000Z"

/-- A row whose correlation id differs from `cidW` (for no-match scenarios). -/
def rowOtherW : PaymentRow :=
  { rowPendingW with id := 2, reference_number := some "ws_CO_other" }

/-- The `StatusResult` that `processCallback` extracts from `successBodyW`. -/
def psSuccessW : StatusResult :=
  { MerchantRequestID := "29115-34620561-1"
    CheckoutRequestID := cidW
    ResultCode := "0"
    ResultDesc := "The service request is processed successfully."
    Amount := some "500"
    MpesaReceiptNumber := some "ABC123"
    TransactionDate := some "20260101120130"
    PhoneNumber := some "254712345678"
    Balance := none }

/-- The `StatusResult` that `processCallback` extracts from `failBodyW`. -/
def psFailW : StatusResult :=
  { MerchantRequestID := "29115-34620561-1"
    CheckoutRequestID := cidW
    ResultCode := "1032"
    ResultDesc := "Request canceled by user" }

/-- A successful callback for `cidW` carrying no metadata at all — in the
source this makes the receipt bind `undefined`, so the success write throws
and no row is updated. -/
def noReceiptCbW : StkCallback := { successCbW with CallbackMetadata := none }

/-- A second successful callback for `cidW` whose metadata carries a
different receipt number. -/
def successCb2W : StkCallback :=
  { successCbW with
    MerchantRequestID := "29115-99999999-2"
    CallbackMetadata := some [{ Name := "MpesaReceiptNumber", Value := "XYZ789" }] }

/-- The `StatusResult` that `processCallback` extracts from `successCb2W`. -/
def psSuccess2W : StatusResult :=
  { MerchantRequestID := "29115-99999999-2"
    CheckoutRequestID := cidW
    ResultCode := "0"
    ResultDesc := "The service request is processed successfully."
    MpesaReceiptNumber := some "XYZ789" }

/-! ### Helper lemmas -/

/-- A digit-list that begins with `0` has at least one element. -/
theorem take_one_length {ds : List Char} {c : Char} (h : ds.take 1 = [c]) :
    1 ≤ ds.length := by
  have h' := congrArg List.length h
  simp [List.length_take] at h'
  omega

/-- Existence of an `ok` result through the final length gate. -/
theorem exists_ok_lengthCheck (f : List Char) :
    (∃ out, phoneLengthCheck f = .ok out) ↔ f.length = 12 := by
  unfold phoneLengthCheck
  split <;> simp_all

/-- Inversion of a successful length gate. -/
theorem phoneLengthCheck_ok {f out : List Char} (h : phoneLengthCheck f = .ok out) :
    out = f ∧ f.length = 12 := by
  unfold phoneLengthCheck at h
  split at h <;> simp_all

/-- Success characterization of `formatPhoneList`: the stripped digits must
begin with the trunk `0` and have 10 digits, or begin with `7`/`1` and have
9 digits, or begin with `254` and have 12 digits.  Any other digit string is
rejected, regardless of its length. -/
theorem formatPhoneList_ok_iff (ds : List Char) :
    (∃ out, formatPhoneList ds = .ok out) ↔
      ((ds.take 1 = ['0'] ∧ ds.length = 10) ∨
       (ds.take 1 ≠ ['0'] ∧ (ds.take 1 = ['7'] ∨ ds.take 1 = ['1']) ∧ ds.length = 9) ∨
       (ds.take 1 ≠ ['0'] ∧ ds.take 1 ≠ ['7'] ∧ ds.take 1 ≠ ['1'] ∧
         ds.take 3 = ['2', '5', '4'] ∧ ds.length = 12)) := by
  unfold formatPhoneList
  by_cases h0 : ds.take 1 = ['0']
  · have hlen := take_one_length h0
    simp only [h0, ite_true]
    rw [exists_ok_lengthCheck]
    simp only [h0, List.length_append, List.length_drop, ne_eq, not_true_eq_false,
      false_and, or_false, false_or, true_and]
    have h3 : (['2', '5', '4'] : List Char).length = 3 := rfl
    rw [h3]
    omega
  · by_cases h71 : ds.take 1 = ['7'] ∨ ds.take 1 = ['1']
    · simp only [h0, ite_false, h71, ite_true]
      rw [exists_ok_lengthCheck]
      simp only [List.length_append, h0, not_false_iff, true_and, ne_eq, false_and, or_false,
        h71, List.length_cons, List.length_nil]
      constructor
      · intro h
        exact Or.inr (Or.inl (by omega))
      · rintro (h | h | ⟨h7, h1, -, h12⟩)
        · exact h.elim
        · omega
        · rcases h71 with hh | hh
          · exact absurd hh h7
          · exact absurd hh h1
    · push_neg at h71
      by_cases h254 : ds.take 3 = ['2', '5', '4']
      · simp only [h0, ite_false, h71.1, h71.2, or_self, h254, ite_true]
        rw [exists_ok_lengthCheck]
        simp [h0, h71.1, h71.2, h254]
      · simp only [h0, ite_false, h71.1, h71.2, or_self, h254]
        simp [h0, h71.1, h71.2, h254]

/-- Shape of a successful `formatPhoneList` output on a digit input: exactly
12 digits beginning with the country code `254`. -/
theorem formatPhoneList_ok_shape (ds out : List Char)
    (hds : ∀ c ∈ ds, c.isDigit) (h : formatPhoneList ds = .ok out) :
    out.length = 12 ∧ out.take 3 = ['2', '5', '4'] ∧ ∀ c ∈ out, c.isDigit := by
  unfold formatPhoneList at h
  split at h
  · obtain ⟨rfl, hl⟩ := phoneLengthCheck_ok h
    refine ⟨hl, by simp, ?_⟩
    intro c hc
    rcases List.mem_append.1 hc with hc | hc
    · fin_cases hc <;> decide
    · exact hds c (List.mem_of_mem_drop hc)
  · split at h
    · obtain ⟨rfl, hl⟩ := phoneLengthCheck_ok h
      refine ⟨hl, by simp, ?_⟩
      intro c hc
      rcases List.mem_append.1 hc with hc | hc
      · fin_cases hc <;> decide
      · exact hds c hc
    · split at h
      · obtain ⟨rfl, hl⟩ := phoneLengthCheck_ok h
        rename_i h254
        exact ⟨hl, h254, hds⟩
      · exact absurd h (by simp)

/-- C8: `normalizePhone` (the source's `formatPhoneNumber`) maps each of the
raw inputs `0712345678`, `712345678` and `254712345678` to `254712345678`. -/
theorem normalizePhone_examples :
    formatPhoneNumber "0712345678" = .ok "254712345678" ∧
    formatPhoneNumber "712345678" = .ok "254712345678" ∧
    formatPhoneNumber "254712345678" = .ok "254712345678" := by decide

/-- C9 counterexample: the claimed failure condition — result not exactly 12
digits, or non-dial characters in the input — does not match the code.  The
input `399999999999` is already a pure 12-digit string (no normalization rule
applies, so the claimed condition predicts success), yet `formatPhoneNumber`
rejects it because its first digits match none of `0`, `7`, `1`, `254`.
Conversely `07x12y345z678` contains letters, which the claim says must fail,
yet the code silently strips them and succeeds. -/
theorem normalizePhone_claim_counterexample :
    formatPhoneNumber "399999999999" = .error "Invalid phone number format" ∧
    (stripNonDigits "399999999999").length = 12 ∧
    (∀ c ∈ "399999999999".toList, c.isDigit) ∧
    formatPhoneNumber "07x12y345z678" = .ok "254712345678" ∧
    ¬ (∀ c ∈ "07x12y345z678".toList, c.isDigit) := by decide

/-- C9 (amended): `normalizePhone` succeeds exactly when the digit string left
after stripping non-digits matches one of the three recognized patterns —
trunk `0` + 9 digits, bare `7`/`1` subscriber of 9 digits, or a full
12-digit string starting `254`; stripped digit strings of any other prefix
fail with the format error even when 12 digits long, and non-dial characters
never cause failure (they are stripped).  Every successful result is a
12-digit string starting with `254`. -/
theorem normalizePhone_failure_characterization :
    (∀ raw : String,
      (∃ out, formatPhoneNumber raw = .ok out) ↔
        (((stripNonDigits raw).take 1 = ['0'] ∧ (stripNonDigits raw).length = 10) ∨
         ((stripNonDigits raw).take 1 ≠ ['0'] ∧
           ((stripNonDigits raw).take 1 = ['7'] ∨ (stripNonDigits raw).take 1 = ['1']) ∧
           (stripNonDigits raw).length = 9) ∨
         ((stripNonDigits raw).take 1 ≠ ['0'] ∧ (stripNonDigits raw).take 1 ≠ ['7'] ∧
           (stripNonDigits raw).take 1 ≠ ['1'] ∧
           (stripNonDigits raw).take 3 = ['2', '5', '4'] ∧
           (stripNonDigits raw).length = 12)))
  ∧ (∀ (raw out : String), formatPhoneNumber raw = .ok out →
      out.length = 12 ∧ out.toList.take 3 = ['2', '5', '4'] ∧ ∀ c ∈ out.toList, c.isDigit) := by
  constructor
  · intro raw
    rw [← formatPhoneList_ok_iff]
    unfold formatPhoneNumber
    cases h : formatPhoneList (stripNonDigits raw) <;> simp [h, Except.map]
  · intro raw out h
    unfold formatPhoneNumber at h
    cases hfl : formatPhoneList (stripNonDigits raw) with
    | error e => rw [hfl] at h; simp [Except.map] at h
    | ok l =>
        rw [hfl] at h
        simp only [Except.map, Except.ok.injEq] at h
        subst h
        have hds : ∀ c ∈ stripNonDigits raw, c.isDigit := by
          intro c hc
          unfold stripNonDigits at hc
          simpa using (List.mem_filter.1 hc).2
        obtain ⟨h12, h254, hdig⟩ := formatPhoneList_ok_shape _ _ hds hfl
        exact ⟨h12, h254, hdig⟩

/-- C9 witness: the characterization applied at the concrete input
`0712345678`. -/
theorem normalizePhone_failure_characterization_witness :
    "254712345678".length = 12 ∧ "254712345678".toList.take 3 = ['2', '5', '4'] ∧
      ∀ c ∈ "254712345678".toList, c.isDigit :=
  normalizePhone_failure_characterization.2 "0712345678" "254712345678" (by decide)

/-- C5: the callback-ingest route answers the gateway with the fixed
acknowledgement `{ResultCode: 0, ResultDesc: "Accepted"}` on every input —
successful resolution, failed resolution, unknown correlation id, and the
`catch` branch for a malformed body alike. -/
theorem callback_always_acknowledges (req : CallbackRequest) (store : List PaymentRow) :
    (mpesaCallbackHandler req store).2 = mpesaAck := by
  unfold mpesaCallbackHandler
  repeat' split
  all_goals rfl

/-- C6: a `StatusResult` whose correlation id matches no stored payment
record resolves to a no-op — the store is returned unchanged (no record
created or modified) and the gateway still receives the success
acknowledgement. -/
theorem callback_unknown_correlation_noop (req : CallbackRequest) (store : List PaymentRow)
    (ps : StatusResult) (hps : processCallback req.body = .ok ps)
    (hnone : ∀ r ∈ store, r.reference_number ≠ some ps.CheckoutRequestID) :
    mpesaCallbackHandler req store = (store, mpesaAck) := by
  have hfind : findByReference store ps.CheckoutRequestID = none := by
    unfold findByReference
    simp only [List.find?_eq_none, decide_eq_true_eq]
    intro x hx
    exact hnone x hx
  unfold mpesaCallbackHandler
  rw [hps]
  simp [hfind]

/-- C6 witness: a successful callback for `cidW` against a store holding only
a record with a different correlation id leaves the store untouched. -/
theorem callback_unknown_correlation_noop_witness :
    mpesaCallbackHandler reqSuccessW [rowOtherW] = ([rowOtherW], mpesaAck) :=
  callback_unknown_correlation_noop reqSuccessW [rowOtherW] psSuccessW (by decide) (by decide)

/-- The metadata switch never touches the `CheckoutRequestID` field. -/
theorem applyMetadataItem_CheckoutRequestID (st : StatusResult) (item : CallbackItem) :
    (applyMetadataItem st item).CheckoutRequestID = st.CheckoutRequestID := by
  unfold applyMetadataItem
  repeat' split
  all_goals rfl

/-- The metadata switch never touches the `ResultCode` field. -/
theorem applyMetadataItem_ResultCode (st : StatusResult) (item : CallbackItem) :
    (applyMetadataItem st item).ResultCode = st.ResultCode := by
  unfold applyMetadataItem
  repeat' split
  all_goals rfl

/-- Folding the metadata items preserves `CheckoutRequestID`. -/
theorem foldl_metadata_CheckoutRequestID (items : List CallbackItem) (st : StatusResult) :
    (items.foldl applyMetadataItem st).CheckoutRequestID = st.CheckoutRequestID := by
  induction items generalizing st with
  | nil => rfl
  | cons i is ih =>
      rw [List.foldl_cons, ih, applyMetadataItem_CheckoutRequestID]

/-- Folding the metadata items preserves `ResultCode`. -/
theorem foldl_metadata_ResultCode (items : List CallbackItem) (st : StatusResult) :
    (items.foldl applyMetadataItem st).ResultCode = st.ResultCode := by
  induction items generalizing st with
  | nil => rfl
  | cons i is ih =>
      rw [List.foldl_cons, ih, applyMetadataItem_ResultCode]

/-- Decoding a well-formed callback always succeeds. -/
theorem processCallback_some_isOk (cb : StkCallback) :
    ∃ ps, processCallback { stkCallback := some cb } = .ok ps := by
  unfold processCallback
  by_cases h : cb.ResultCode = 0
  · cases hm : cb.CallbackMetadata <;> simp [h, hm]
  · simp [h]

/-- The decoded status carries the raw callback's correlation id and (the
string rendering of) its result code. -/
theorem processCallback_ok_fields (cb : StkCallback) (ps : StatusResult)
    (h : processCallback { stkCallback := some cb } = .ok ps) :
    ps.CheckoutRequestID = cb.CheckoutRequestID ∧ ps.ResultCode = toString cb.ResultCode := by
  unfold processCallback at h
  dsimp only at h
  by_cases h0 : cb.ResultCode = 0
  · rw [if_pos h0] at h
    cases hm : cb.CallbackMetadata with
    | none =>
        rw [hm] at h
        injection h with h
        subst h
        exact ⟨rfl, rfl⟩
    | some items =>
        rw [hm] at h
        injection h with h
        subst h
        exact ⟨foldl_metadata_CheckoutRequestID items _, foldl_metadata_ResultCode items _⟩
  · rw [if_neg h0] at h
    injection h with h
    subst h
    exact ⟨rfl, rfl⟩

/-- The callback handler reads nothing of the request except its body. -/
theorem callbackHandler_body_only (r1 r2 : CallbackRequest) (store : List PaymentRow)
    (h : r1.body = r2.body) :
    mpesaCallbackHandler r1 store = mpesaCallbackHandler r2 store := by
  unfold mpesaCallbackHandler
  rw [h]

/-- Two updates that keep the row id and assign the same status produce the
same id/status projection. -/
theorem updateById_proj_eq (store : List PaymentRow) (pid : Nat)
    (f g : PaymentRow → PaymentRow)
    (hf : ∀ r, (f r).id = r.id) (hg : ∀ r, (g r).id = r.id)
    (hst : ∀ r, (f r).payment_status = (g r).payment_status) :
    (updateById store pid f).map (fun r => (r.id, r.payment_status)) =
      (updateById store pid g).map (fun r => (r.id, r.payment_status)) := by
  unfold updateById
  rw [List.map_map, List.map_map]
  apply List.map_congr_left
  intro r _
  by_cases hid : r.id = pid <;> simp [Function.comp, hid, hf, hg, hst]

/-- C10 counterexample: the state transition is not determined solely by the
payload's `CheckoutRequestID` and `ResultCode` together with the store.  Two
success payloads agreeing on both — one with settlement metadata, one with
none — transition the same pending store differently: the receipted payload
completes the record, while the receiptless one makes the success write bind
an undefined receipt, which the driver rejects, so the record stays
`pending`. -/
theorem callback_receipt_dependence_counterexample :
    noReceiptCbW.CheckoutRequestID = successCbW.CheckoutRequestID ∧
    noReceiptCbW.ResultCode = successCbW.ResultCode ∧
    ((mpesaCallbackHandler { authorization := none, body := { stkCallback := some successCbW } }
        [rowPendingW]).1.map fun r => r.payment_status) = ["completed"] ∧
    ((mpesaCallbackHandler { authorization := none, body := { stkCallback := some noReceiptCbW } }
        [rowPendingW]).1.map fun r => r.payment_status) = ["pending"] := by decide

/-- C10 (amended): the callback-ingest route has no authentication
precondition and is deterministic in the payload: (1) the handler ignores the
request's `Authorization` header entirely; (2) equal payloads against equal
stores produce equal state transitions and responses; (3) which record is
updated and to which status is determined by the payload's
`CheckoutRequestID` and `ResultCode` together with the current store and one
further bit — whether a success payload carries a receipt (without it the
rejected bind leaves the record unchanged; see the counterexample). -/
theorem callback_no_auth_payload_determinism :
    (∀ (a1 a2 : Option String) (b : CallbackBody) (store : List PaymentRow),
      mpesaCallbackHandler { authorization := a1, body := b } store =
        mpesaCallbackHandler { authorization := a2, body := b } store)
  ∧ (∀ (r1 r2 : CallbackRequest) (s1 s2 : List PaymentRow),
      r1.body = r2.body → s1 = s2 →
        mpesaCallbackHandler r1 s1 = mpesaCallbackHandler r2 s2)
  ∧ (∀ (a1 a2 : Option String) (cb1 cb2 : StkCallback) (store : List PaymentRow)
      (ps1 ps2 : StatusResult),
      processCallback { stkCallback := some cb1 } = .ok ps1 →
      processCallback { stkCallback := some cb2 } = .ok ps2 →
      cb1.CheckoutRequestID = cb2.CheckoutRequestID → cb1.ResultCode = cb2.ResultCode →
      ps1.MpesaReceiptNumber.isSome = ps2.MpesaReceiptNumber.isSome →
      ((mpesaCallbackHandler { authorization := a1, body := { stkCallback := some cb1 } }
          store).1.map fun r => (r.id, r.payment_status)) =
        ((mpesaCallbackHandler { authorization := a2, body := { stkCallback := some cb2 } }
          store).1.map fun r => (r.id, r.payment_status))) := by
  refine ⟨?_, ?_, ?_⟩
  · intro a1 a2 b store
    exact callbackHandler_body_only _ _ store rfl
  · intro r1 r2 s1 s2 hb hs
    subst hs
    exact callbackHandler_body_only _ _ _ hb
  · intro a1 a2 cb1 cb2 store ps1 ps2 hps1 hps2 hcid hrc hsome
    obtain ⟨hc1, hr1⟩ := processCallback_ok_fields cb1 ps1 hps1
    obtain ⟨hc2, hr2⟩ := processCallback_ok_fields cb2 ps2 hps2
    have hcc : ps1.CheckoutRequestID = ps2.CheckoutRequestID := by rw [hc1, hc2, hcid]
    have hrr : ps1.ResultCode = ps2.ResultCode := by rw [hr1, hr2, hrc]
    unfold mpesaCallbackHandler
    rw [hps1, hps2]
    simp only [hcc, hrr]
    cases hfind : findByReference store ps2.CheckoutRequestID with
    | none => simp
    | some p =>
        by_cases h0 : ps2.ResultCode = "0"
        · simp only [h0, ite_true]
          cases hr2x : ps2.MpesaReceiptNumber with
          | none =>
              have hr1x : ps1.MpesaReceiptNumber = none := by
                rw [hr2x] at hsome
                cases hx : ps1.MpesaReceiptNumber
                · rfl
                · rw [hx] at hsome
                  simp at hsome
              simp [hr1x, hr2x]
          | some r2 =>
              obtain ⟨r1, hr1x⟩ : ∃ r1, ps1.MpesaReceiptNumber = some r1 := by
                rw [hr2x] at hsome
                cases hx : ps1.MpesaReceiptNumber
                · rw [hx] at hsome
                  simp at hsome
                · exact ⟨_, rfl⟩
              simp only [hr1x, hr2x]
              exact updateById_proj_eq store p.id _ _ (fun r => rfl) (fun r => rfl)
                (fun r => rfl)
        · simp only [h0, ite_false]
          exact updateById_proj_eq store p.id _ _ (fun r => rfl) (fun r => rfl) (fun r => rfl)

/-- C10 witness: the determinism conjunct applied at two concrete receipted
success payloads (receipts `ABC123` and `XYZ789`) under different credential
headers — the id/status transitions coincide. -/
theorem callback_no_auth_payload_determinism_witness :
    ((mpesaCallbackHandler { authorization := none, body := { stkCallback := some successCbW } }
        [rowPendingW]).1.map fun r => (r.id, r.payment_status)) =
      ((mpesaCallbackHandler
          { authorization := some "Bearer forged-token",
            body := { stkCallback := some successCb2W } }
        [rowPendingW]).1.map fun r => (r.id, r.payment_status)) :=
  callback_no_auth_payload_determinism.2.2 none (some "Bearer forged-token")
    successCbW successCb2W [rowPendingW] psSuccessW psSuccess2W
    (by decide) (by decide) (by decide) (by decide) (by decide)

/-- After an update that moves every matching row off the correlation id,
the correlation lookup finds nothing. -/
theorem findByReference_updateById_none (store : List PaymentRow) (pid : Nat) (cid : String)
    (f : PaymentRow → PaymentRow)
    (hf : ∀ r, (f r).reference_number ≠ some cid)
    (H : ∀ r ∈ store, r.reference_number = some cid → r.id = pid) :
    findByReference (updateById store pid f) cid = none := by
  unfold findByReference updateById
  simp only [List.find?_eq_none, List.mem_map, decide_eq_true_eq, forall_exists_index, and_imp]
  rintro x r hr rfl
  by_cases hid : r.id = pid
  · simp only [hid, ite_true]
    exact hf r
  · simp only [hid, ite_false]
    intro hrc
    exact hid (H r hr hrc)

/-- Shape of the callback handler on a successful resolution whose receipt is
present. -/
theorem callbackHandler_success_eq (req : CallbackRequest) (store : List PaymentRow)
    (ps : StatusResult) (p : PaymentRow) (receipt : String)
    (hps : processCallback req.body = .ok ps) (hrc : ps.ResultCode = "0")
    (hrec : ps.MpesaReceiptNumber = some receipt)
    (hfind : findByReference store ps.CheckoutRequestID = some p) :
    mpesaCallbackHandler req store =
      (updateById store p.id (callbackSuccessUpdate ps receipt), mpesaAck) := by
  unfold mpesaCallbackHandler
  rw [hps]
  simp [hfind, hrc, hrec]

/-- Shape of the callback handler on a successful result whose receipt is
absent: the undefined bind aborts the write before any row changes, and the
catch branch still acknowledges. -/
theorem callbackHandler_success_no_receipt (req : CallbackRequest) (store : List PaymentRow)
    (ps : StatusResult)
    (hps : processCallback req.body = .ok ps) (hrc : ps.ResultCode = "0")
    (hrec : ps.MpesaReceiptNumber = none) :
    mpesaCallbackHandler req store = (store, mpesaAck) := by
  unfold mpesaCallbackHandler
  rw [hps]
  cases hfind : findByReference store ps.CheckoutRequestID <;> simp [hfind, hrc, hrec]

/-- Shape of the callback handler when the correlation lookup misses. -/
theorem callbackHandler_find_none (req : CallbackRequest) (store : List PaymentRow)
    (ps : StatusResult) (hps : processCallback req.body = .ok ps)
    (hfind : findByReference store ps.CheckoutRequestID = none) :
    mpesaCallbackHandler req store = (store, mpesaAck) := by
  unfold mpesaCallbackHandler
  rw [hps]
  simp [hfind]

/-- C1 counterexample: a record already in the terminal state `failed` (with
its correlation id still in `reference_number`) is mutated again by a later
successful callback — the unconditional `WHERE id = ?` write flips it to
`completed`, so a terminal record is not left unchanged and `status`
transitions to a terminal value more than once. -/
theorem terminal_state_overwritten_counterexample :
    rowFailedW.payment_status = "failed" ∧
    ((mpesaCallbackHandler reqSuccessW [rowFailedW]).1.map fun r => r.payment_status) =
      ["completed"] ∧
    (mpesaCallbackHandler reqSuccessW [rowFailedW]).1 ≠ [rowFailedW] := by decide

/-- C1 (amended): replaying the same `StatusResult` is idempotent — the poll
path rewrites identical values (value-level no-op), and a repeated successful
callback is a store no-op: with a receipt present the success write moved
`reference_number` off the correlation id, so the second lookup misses; with
no receipt the rejected bind prevented any write at all, so both deliveries
leave the store untouched.  The amendment drops the claim's guarantee for
terminal records reached with a different outcome: no status guard protects
them (see the counterexample). -/
theorem resolve_replay_idempotent :
    (∀ (cid : String) (pid : Nat) (st : StatusResult) (store : List PaymentRow),
      checkAndUpdatePaymentStatus cid pid st (checkAndUpdatePaymentStatus cid pid st store) =
        checkAndUpdatePaymentStatus cid pid st store)
  ∧ (∀ (req : CallbackRequest) (store : List PaymentRow) (ps : StatusResult) (p : PaymentRow),
      processCallback req.body = .ok ps → ps.ResultCode = "0" →
      ps.MpesaReceiptNumber ≠ some ps.CheckoutRequestID →
      findByReference store ps.CheckoutRequestID = some p →
      (∀ r ∈ store, r.reference_number = some ps.CheckoutRequestID → r.id = p.id) →
      mpesaCallbackHandler req (mpesaCallbackHandler req store).1 =
        mpesaCallbackHandler req store) := by
  constructor
  · intro cid pid st store
    unfold checkAndUpdatePaymentStatus
    by_cases h : st.ResultCode = "0"
    · simp only [h, ite_true]
      unfold updateById
      rw [List.map_map]
      apply List.map_congr_left
      intro r _
      by_cases hid : r.id = pid <;>
        simp [Function.comp, hid, pollSuccessUpdate]
    · simp only [h, ite_false]
      unfold updateById
      rw [List.map_map]
      apply List.map_congr_left
      intro r _
      by_cases hid : r.id = pid <;>
        simp [Function.comp, hid, pollFailureUpdate]
  · intro req store ps p hps hrc hrecpt hfind H
    cases hrec : ps.MpesaReceiptNumber with
    | none =>
        have h1 := callbackHandler_success_no_receipt req store ps hps hrc hrec
        rw [h1]
        exact h1
    | some receipt =>
        have hne : receipt ≠ ps.CheckoutRequestID := by
          intro h
          exact hrecpt (by rw [hrec, h])
        have h1 := callbackHandler_success_eq req store ps p receipt hps hrc hrec hfind
        have h2 : findByReference (updateById store p.id (callbackSuccessUpdate ps receipt))
            ps.CheckoutRequestID = none := by
          apply findByReference_updateById_none
          · intro r
            simpa [callbackSuccessUpdate] using hne
          · exact H
        rw [h1]
        exact callbackHandler_find_none req _ ps hps h2

/-- C1 witness: the callback-path idempotence applied to the concrete pending
record and successful callback. -/
theorem resolve_replay_idempotent_witness :
    mpesaCallbackHandler reqSuccessW (mpesaCallbackHandler reqSuccessW [rowPendingW]).1 =
      mpesaCallbackHandler reqSuccessW [rowPendingW] :=
  resolve_replay_idempotent.2 reqSuccessW [rowPendingW] psSuccessW rowPendingW
    (by decide) (by decide) (by decide) (by decide) (by decide)

/-- C2 counterexample: two resolves with different outcomes both persist a
terminal write.  A failure callback first marks the pending record `failed`;
a success callback for the same correlation id then finds the record (its
`reference_number` is untouched by the failure write) and overwrites the
terminal state to `completed` — the second write applied even though the
record was no longer `pending`, so the losing update did have an effect. -/
theorem race_both_writes_apply_counterexample :
    rowPendingW.payment_status = "pending" ∧
    ((mpesaCallbackHandler reqFailW [rowPendingW]).1.map fun r => r.payment_status) =
      ["failed"] ∧
    ((mpesaCallbackHandler reqSuccessW
        (mpesaCallbackHandler reqFailW [rowPendingW]).1).1.map fun r => r.payment_status) =
      ["completed"] := by decide

/-- C2 (amended): exactly one terminal state persists only when the
successful resolve wins first and its write actually applies, i.e. the
success payload carries a receipt (a receiptless success write is rejected by
the driver and persists nothing, so a competing failure resolve can still
land).  With the receipt present and distinct from the correlation id, the
success write moves `reference_number` to the receipt number, so the
competing failure resolve for the same correlation id matches no record, has
no effect, and raises no error (it still acknowledges).  In the opposite
order both writes apply, because the terminal-state write is keyed on `id`
alone and not conditioned on `payment_status = 'pending'`. -/
theorem race_success_first_single_terminal :
    ∀ (reqS reqF : CallbackRequest) (store : List PaymentRow) (psS psF : StatusResult)
      (p : PaymentRow) (receipt : String),
      processCallback reqS.body = .ok psS → psS.ResultCode = "0" →
      psS.MpesaReceiptNumber = some receipt → receipt ≠ psS.CheckoutRequestID →
      findByReference store psS.CheckoutRequestID = some p →
      (∀ r ∈ store, r.reference_number = some psS.CheckoutRequestID → r.id = p.id) →
      processCallback reqF.body = .ok psF →
      psF.CheckoutRequestID = psS.CheckoutRequestID →
      mpesaCallbackHandler reqF (mpesaCallbackHandler reqS store).1 =
        ((mpesaCallbackHandler reqS store).1, mpesaAck) := by
  intro reqS reqF store psS psF p receipt hpsS hrc hrec hne hfind H hpsF hcid
  have h1 := callbackHandler_success_eq reqS store psS p receipt hpsS hrc hrec hfind
  have h2 : findByReference (updateById store p.id (callbackSuccessUpdate psS receipt))
      psF.CheckoutRequestID = none := by
    rw [hcid]
    apply findByReference_updateById_none
    · intro r
      simpa [callbackSuccessUpdate] using hne
    · exact H
  rw [h1]
  exact callbackHandler_find_none reqF _ psF hpsF h2

/-- C2 witness: success-then-failure on the concrete pending record — the
failure resolve is a no-op after the success resolve (receipt `ABC123`)
won. -/
theorem race_success_first_single_terminal_witness :
    mpesaCallbackHandler reqFailW (mpesaCallbackHandler reqSuccessW [rowPendingW]).1 =
      ((mpesaCallbackHandler reqSuccessW [rowPendingW]).1, mpesaAck) :=
  race_success_first_single_terminal reqSuccessW reqFailW [rowPendingW] psSuccessW psFailW
    rowPendingW "ABC123" (by decide) (by decide) (by decide) (by decide) (by decide)
    (by decide) (by decide) (by decide)

/-- C3 counterexample: a successful resolve rewrites the correlation id.  The
pending record holds `reference_number = cidW` (set by `initiate`); after the
successful callback the column holds the M-Pesa receipt number `ABC123`
instead. -/
theorem correlation_id_overwritten_counterexample :
    rowPendingW.reference_number = some cidW ∧
    ((mpesaCallbackHandler reqSuccessW [rowPendingW]).1.map fun r => r.reference_number) =
      [some "ABC123"] ∧
    some "ABC123" ≠ some cidW := by decide

/-- C3 (amended): the correlation id is preserved by every failed resolve on
both paths; a successful callback resolve carrying a receipt replaces
`reference_number` with that receipt number (every row carrying the matched
id ends with it); a successful callback without a receipt writes nothing at
all (the rejected undefined bind leaves the store, and hence the correlation
id, in place); and the poll path's success write always rewrites the column
to `MpesaReceiptNumber || checkoutRequestId`. -/
theorem correlation_id_rewrite_characterization :
    (∀ (req : CallbackRequest) (store : List PaymentRow) (ps : StatusResult),
      processCallback req.body = .ok ps → ps.ResultCode ≠ "0" →
      ((mpesaCallbackHandler req store).1.map fun r => r.reference_number) =
        store.map fun r => r.reference_number)
  ∧ (∀ (cid : String) (pid : Nat) (st : StatusResult) (store : List PaymentRow),
      st.ResultCode ≠ "0" →
      ((checkAndUpdatePaymentStatus cid pid st store).map fun r => r.reference_number) =
        store.map fun r => r.reference_number)
  ∧ (∀ (req : CallbackRequest) (store : List PaymentRow) (ps : StatusResult) (p : PaymentRow)
      (receipt : String),
      processCallback req.body = .ok ps → ps.ResultCode = "0" →
      ps.MpesaReceiptNumber = some receipt →
      findByReference store ps.CheckoutRequestID = some p →
      ∀ x ∈ (mpesaCallbackHandler req store).1, x.id = p.id →
        x.reference_number = some receipt)
  ∧ (∀ (req : CallbackRequest) (store : List PaymentRow) (ps : StatusResult),
      processCallback req.body = .ok ps → ps.ResultCode = "0" →
      ps.MpesaReceiptNumber = none →
      (mpesaCallbackHandler req store).1 = store)
  ∧ (∀ (cid : String) (pid : Nat) (st : StatusResult) (store : List PaymentRow),
      st.ResultCode = "0" →
      ∀ x ∈ checkAndUpdatePaymentStatus cid pid st store, x.id = pid →
        x.reference_number = some (jsOr st.MpesaReceiptNumber cid)) := by
  refine ⟨?_, ?_, ?_, ?_, ?_⟩
  · intro req store ps hps hrc
    unfold mpesaCallbackHandler
    rw [hps]
    cases hfind : findByReference store ps.CheckoutRequestID with
    | none => simp [hfind]
    | some p =>
        simp only [hfind, hrc, ite_false]
        unfold updateById
        rw [List.map_map]
        apply List.map_congr_left
        intro r _
        by_cases hid : r.id = p.id <;> simp [Function.comp, hid, callbackFailureUpdate]
  · intro cid pid st store hrc
    unfold checkAndUpdatePaymentStatus
    simp only [hrc, ite_false]
    unfold updateById
    rw [List.map_map]
    apply List.map_congr_left
    intro r _
    by_cases hid : r.id = pid <;> simp [Function.comp, hid, pollFailureUpdate]
  · intro req store ps p receipt hps hrc hrec hfind x hx hid
    rw [callbackHandler_success_eq req store ps p receipt hps hrc hrec hfind] at hx
    simp only [updateById, List.mem_map] at hx
    obtain ⟨r, _, rfl⟩ := hx
    by_cases hr : r.id = p.id
    · simp [hr, callbackSuccessUpdate]
    · simp [hr] at hid
  · intro req store ps hps hrc hrec
    exact congrArg Prod.fst (callbackHandler_success_no_receipt req store ps hps hrc hrec)
  · intro cid pid st store hrc x hx hid
    unfold checkAndUpdatePaymentStatus at hx
    rw [if_pos hrc] at hx
    simp only [updateById, List.mem_map] at hx
    obtain ⟨r, _, rfl⟩ := hx
    by_cases hr : r.id = pid
    · simp [hr, pollSuccessUpdate]
    · simp [hr] at hid

/-- C3 witness: a failed callback leaves the concrete record's correlation id
in place. -/
theorem correlation_id_rewrite_characterization_witness :
    ((mpesaCallbackHandler reqFailW [rowPendingW]).1.map fun r => r.reference_number) =
      [rowPendingW].map fun r => r.reference_number :=
  correlation_id_rewrite_characterization.1 reqFailW [rowPendingW] psFailW
    (by decide) (by decide)

/-- Casting an integer into the rationals and flooring gives it back. -/
theorem ratFloor_intCast (n : Int) : ((n : Rat)).floor = n := by
  rw [Rat.floor_def']
  simp

/-- Every branch of the initiate handler either leaves the store unchanged or
reports HTTP 201. -/
theorem initiate_branches (userId : Nat) (amount : Rat) (phone : String)
    (description : Option String) (tenants : List TenantRow) (gateway : Except String PushAck)
    (now : String) (nextId : Nat) (store : List PaymentRow) :
    (mpesaInitiateHandler userId amount phone description tenants gateway now nextId store).1 =
      store ∨
    (mpesaInitiateHandler userId amount phone description tenants gateway now nextId
      store).2.isCreated = true := by
  unfold mpesaInitiateHandler
  dsimp only
  repeat' split
  all_goals first
    | (left; rfl)
    | simp [InitResult.isCreated]

/-- C4: whenever the initiate call does not answer HTTP 201 — a missing or
falsy parameter, an out-of-range amount, an invalid phone, a missing tenancy,
or a gateway-initiation error (which rolls the transaction back) — the
`payments` table is exactly as it was: no `PaymentRecord` is persisted. -/
theorem initiate_failure_no_record (userId : Nat) (amount : Rat) (phone : String)
    (description : Option String) (tenants : List TenantRow) (gateway : Except String PushAck)
    (now : String) (nextId : Nat) (store : List PaymentRow)
    (h : (mpesaInitiateHandler userId amount phone description tenants gateway now nextId
      store).2.isCreated = false) :
    (mpesaInitiateHandler userId amount phone description tenants gateway now nextId
      store).1 = store := by
  rcases initiate_branches userId amount phone description tenants gateway now nextId store with
    hl | hr
  · exact hl
  · rw [hr] at h
    exact absurd h (by simp)

/-- C4 witness: a gateway-initiation error on a concrete valid request leaves
the empty store empty. -/
theorem initiate_failure_no_record_witness :
    (mpesaInitiateHandler 7 (mkRat 500 1) "0712345678" none tenantsW
      (.error "M-Pesa API Error: Unable to process request") nowW 1 []).1 = [] :=
  initiate_failure_no_record 7 (mkRat 500 1) "0712345678" none tenantsW
    (.error "M-Pesa API Error: Unable to process request") nowW 1 [] (by decide)

/-- C7 counterexample: the amount `500000.5` exceeds the ceiling `500000`,
yet the initiate flow accepts it (the range check applies to
`Math.floor(amount) = 500000`, not to the raw amount), so `initiatePush` does
not reject every `a > ceiling`.  Moreover the Gateway Client function
`initiatePayment` alone enforces no ceiling at all: it accepts a whole
amount of `500001` outright (the `500000` bound lives only in the HTTP
handler). -/
theorem initiate_amount_ceiling_counterexample :
    mkRat 1000001 2 > 500000 ∧
    (mpesaInitiateHandler 7 (mkRat 1000001 2) "0712345678" none tenantsW (.ok ackW) nowW 1
      []).2 = .created 1 cidW ∧
    initiatePayment (.ok ackW)
      { phone := "254712345678", amount := 500001,
        accountReference := "RENT1", transactionDesc := "Rent1" } = .ok ackW := by decide

/-- C7 (amended): the initiate flow validates the floored amount: it rejects
with the amount-range error exactly when `⌊a⌋ < 1` or `⌊a⌋ > 500000` (for
nonzero `a`; `a = 0` is caught earlier by the required-fields check), and
accepts any other amount, persisting `⌊a⌋`.  In particular `500000` succeeds
and `500001` fails, but fractional amounts in `(500000, 500001)` are
accepted. -/
theorem initiate_amount_validation :
    (∀ a : Rat, a ≠ 0 → (a.floor < 1 ∨ a.floor > 500000) →
      (mpesaInitiateHandler 7 a "0712345678" none tenantsW (.ok ackW) nowW 1 []).2 =
        .badRequest "Amount must be between KES 1 and KES 500,000")
  ∧ (∀ a : Rat, 1 ≤ a.floor → a.floor ≤ 500000 →
      (mpesaInitiateHandler 7 a "0712345678" none tenantsW (.ok ackW) nowW 1 []).2 =
        .created 1 cidW ∧
      ((mpesaInitiateHandler 7 a "0712345678" none tenantsW (.ok ackW) nowW 1 []).1.map
          fun r => r.amount) = [a.floor]) := by
  constructor
  · intro a ha hrange
    unfold mpesaInitiateHandler
    rw [if_neg (by simp [ha] : ¬(a = 0 ∨ ("0712345678" : String) = ""))]
    rw [if_pos hrange]
  · intro a h1 h2
    have ha : a ≠ 0 := by
      intro h
      rw [h] at h1
      rw [show (0 : Rat).floor = 0 by decide] at h1
      omega
    have hneg : ¬(a = 0 ∨ ("0712345678" : String) = "") := by simp [ha]
    have hrange : ¬(a.floor < 1 ∨ a.floor > 500000) := by omega
    have hph : formatPhoneNumber "0712345678" = .ok "254712345678" := by decide
    have hft : List.find? (fun t => t.user_id = 7) tenantsW = some ⟨5, 3, 7⟩ := by decide
    have hip : initiatePayment (.ok ackW)
        { phone := "254712345678", amount := ((a.floor : Int) : Rat),
          accountReference := "RENT" ++ toString 1, transactionDesc := "Rent" ++ toString 1 } =
        .ok ackW := by
      unfold initiatePayment
      rw [show formatPhoneNumber "254712345678" = .ok "254712345678" by decide]
      simp only [ratFloor_intCast]
      rw [if_neg (by omega : ¬a.floor < 1)]
    simp only [mpesaInitiateHandler, hneg, ite_false, hrange, hph, hft, hip]
    constructor
    · rfl
    · simp [updateById]

/-- C7 witness: the validation applied at the boundary — `500001` is rejected
with the amount-range error, `500000` is accepted and persisted. -/
theorem initiate_amount_validation_witness :
    (mpesaInitiateHandler 7 ((500001 : Int) : Rat) "0712345678" none tenantsW (.ok ackW)
        nowW 1 []).2 = .badRequest "Amount must be between KES 1 and KES 500,000" ∧
    (mpesaInitiateHandler 7 ((500000 : Int) : Rat) "0712345678" none tenantsW (.ok ackW)
        nowW 1 []).2 = .created 1 cidW ∧
    ((mpesaInitiateHandler 7 ((500000 : Int) : Rat) "0712345678" none tenantsW (.ok ackW)
        nowW 1 []).1.map fun r => r.amount) = [((500000 : Int) : Rat).floor] :=
  ⟨initiate_amount_validation.1 _ (by decide) (by decide),
   (initiate_amount_validation.2 _ (by decide) (by decide)).1,
   (initiate_amount_validation.2 _ (by decide) (by decide)).2⟩
